import Mathlib

/-!
# Verification of `latlon.py` (IngestMarineCadastre)

A shallow embedding of the single-file batch program `latlon.py`, which

* creates a `zones` table and fills it with UTM-style grid-cell polygons
  (`build_zone_polygons`),
* creates a `vessels` table and bulk-copies AIS CSV files into it
  (`copy_csv_to_table`), driven by a month × zone loop that extracts one
  zip archive per iteration and removes the extracted tree afterwards,
* finally backfills the `the_geom` point geometry column of `vessels`
  from its `lat`/`lon` columns with one bulk `UPDATE`.

The database is modelled as explicit Lean data (`DB`), SQL strings and
PostGIS calls by executable functions over that data, the filesystem
side effects of the driver loop by a tiny state record (`FS`), and
stdout by lists of strings.  Machine floats never matter here: the
`real` columns are only ever moved around verbatim or rendered to text,
so column values are modelled as the text fields that the CSV `COPY`
delivered (`Option String`, `none` = SQL NULL).
-/

set_option maxRecDepth 100000

namespace LatLon

/-! ## Zone grid (`build_zone_polygons`)

Mirrors the Python lists

```
llatname = ['C','D','E','F','G','H','J','K','L','M','N','P','Q','R','S','T','U','V','W']
llonname = list(range(1,61))
llat = list(range(-80, 72, 8))
llon = list(range(-180, 180, 6))
```
-/

def llatname : List String :=
  ["C", "D", "E", "F", "G", "H", "J", "K", "L", "M", "N",
   "P", "Q", "R", "S", "T", "U", "V", "W"]

def llonname : List Nat := List.range' 1 60

/-- `range(-80, 72, 8)` : the 19 latitude-band start values −80, −72, …, 64. -/
def llat : List Int := (List.range 19).map (fun k => -80 + 8 * (k : Int))

/-- `range(-180, 180, 6)` : the 60 longitude-band start values −180, −174, …, 174. -/
def llon : List Int := (List.range 60).map (fun k => -180 + 6 * (k : Int))

/-- One entry of the Python 2-D list `queryvar`: the tile name followed by the
five coordinate pairs that are substituted, in order, into
`LINESTRING(%s %s, %s %s, %s %s, %s %s, %s %s)`.  Each pair is therefore a WKT
`(X Y)` vertex, in exactly the order the Python code supplies the numbers. -/
structure ZoneEntry where
  name : String
  p1 : Int × Int
  p2 : Int × Int
  p3 : Int × Int
  p4 : Int × Int
  p5 : Int × Int
deriving DecidableEq, Repr

/-- The list `queryvar` built by `build_zone_polygons`: for every
`(lat, latname)` in `zip(llat, llatname)` and `(lon, lonname)` in
`zip(llon, llonname)` the entry
`[str(lonname)+latname, lat,lon, lat,lon+6, lat+8,lon+6, lat+8,lon, lat,lon]`,
followed by the extra `X` band at `lat = 72` with height 12. -/
def queryvar : List ZoneEntry :=
  ((llat.zip llatname).flatMap (fun q =>
    (llon.zip llonname).map (fun r =>
      { name := toString r.2 ++ q.2,
        p1 := (q.1, r.1), p2 := (q.1, r.1 + 6), p3 := (q.1 + 8, r.1 + 6),
        p4 := (q.1 + 8, r.1), p5 := (q.1, r.1) })))
  ++ ((llon.zip llonname).map (fun r =>
      { name := toString r.2 ++ "X",
        p1 := ((72 : Int), r.1), p2 := (72, r.1 + 6), p3 := (72 + 12, r.1 + 6),
        p4 := (72 + 12, r.1), p5 := (72, r.1) }))

/-- The open line `ST_GeomFromText('LINESTRING(p1, p2, p3, p4, p5)')` of one
`queryvar` entry. -/
def openLine (z : ZoneEntry) : List (Int × Int) := [z.p1, z.p2, z.p3, z.p4, z.p5]

/-- `ST_StartPoint` of a line string. -/
def st_StartPoint (line : List (Int × Int)) : Option (Int × Int) := line.head?

/-- `ST_AddPoint(line, p)` : append the point `p` to the line string. -/
def st_AddPoint (line : List (Int × Int)) (p : Int × Int) : List (Int × Int) :=
  line ++ [p]

/-- The ring of the polygon inserted for one zone:
`ST_MakePolygon(ST_AddPoint(open_line, ST_StartPoint(open_line)))`.
(`openLine` is always non-empty, so the `none` branch of `ST_StartPoint` is
unreachable; a NULL start point would make the whole expression NULL.) -/
def zonePolygonRing (z : ZoneEntry) : List (Int × Int) :=
  match st_StartPoint (openLine z) with
  | some p => st_AddPoint (openLine z) p
  | none => openLine z

/-- A row of the `zones` table (the surrogate `id` column is irrelevant to the
claims and is left implicit as the list position). -/
structure ZoneRow where
  name : String
  polygon : List (Int × Int)
deriving DecidableEq, Repr

/-! ## The `vessels` table and `copy_csv_to_table` -/

/-- A PostGIS geometry value, kept as the WKT text it was built from plus its
SRID; the WKT of every geometry this program creates is `POINT(x y)`. -/
structure Geom where
  wkt : String
  srid : Int
deriving DecidableEq, Repr

/-- One row of the `vessels` table.  Non-geometry columns hold the text that
`COPY` received for them (`none` = SQL NULL); `the_geom` is the derived
geometry column, NULL until the final backfill `UPDATE`. -/
structure VesselRow where
  mmsi : Option String
  basedatetime : Option String
  lat : Option String
  lon : Option String
  the_geom : Option Geom
  sog : Option String
  cog : Option String
  heading : Option String
  vesselname : Option String
  imo : Option String
  callsign : Option String
  vesseltype : Option String
  status : Option String
  length : Option String
  width : Option String
  draft : Option String
  cargo : Option String
deriving DecidableEq, Repr

/-- The database state: the two tables the program writes. -/
structure DB where
  zones : List ZoneRow
  vessels : List VesselRow
deriving DecidableEq, Repr

def emptyDB : DB := { zones := [], vessels := [] }

/-- `build_zone_polygons(con)`: one `INSERT INTO zones (name, polygon) ...`
per `queryvar` entry, all committed at the end. -/
def build_zone_polygons (db : DB) : DB :=
  { db with zones := db.zones ++ queryvar.map (fun z =>
      { name := z.name, polygon := zonePolygonRing z }) }

/-- Split one `COPY ... FROM` text line on the separator character, exactly as
`copy_from(f, 'vessels', sep=',', ...)` does (plain text format, no quoting). -/
def splitFields (sep : Char) (line : String) : List String :=
  (line.data.splitOn sep).map (fun cs => String.mk cs)

/-- Field `i` of a CSV line (only used with `i < 16` on 16-field lines). -/
def fieldAt (line : String) (i : Nat) : String := (splitFields ',' line).getD i ""

/-- `null=""` handling of `copy_from`: an empty field is stored as SQL NULL. -/
def toNullable (s : String) : Option String :=
  if s = "" then none else some s

/-- Parse one data line into a `vessels` row, per the column list
`('mmsi','basedatetime','lat','lon','sog','cog','heading','vesselname','imo',
'callsign','vesseltype','status','length','width','draft','cargo')` of the
`copy_from` call: the line must have exactly 16 fields, which are assigned to
those columns positionally; every column not in the list (`the_geom`) is left
NULL.  A wrong field count makes `COPY` reject the line. -/
def parseCsvLine (line : String) : Option VesselRow :=
  let fs := splitFields ',' line
  if fs.length = 16 then
    some { mmsi := toNullable (fs.getD 0 ""), basedatetime := toNullable (fs.getD 1 ""),
           lat := toNullable (fs.getD 2 ""), lon := toNullable (fs.getD 3 ""),
           the_geom := none,
           sog := toNullable (fs.getD 4 ""), cog := toNullable (fs.getD 5 ""),
           heading := toNullable (fs.getD 6 ""),
           vesselname := toNullable (fs.getD 7 ""), imo := toNullable (fs.getD 8 ""),
           callsign := toNullable (fs.getD 9 ""),
           vesseltype := toNullable (fs.getD 10 ""), status := toNullable (fs.getD 11 ""),
           length := toNullable (fs.getD 12 ""), width := toNullable (fs.getD 13 ""),
           draft := toNullable (fs.getD 14 ""), cargo := toNullable (fs.getD 15 "") }
  else none

/-- The bulk `COPY` statement: parse every data line; any malformed line
aborts the whole statement (no rows are kept). -/
def copyFrom : List String → Option (List VesselRow)
  | [] => some []
  | line :: rest =>
    match parseCsvLine line, copyFrom rest with
    | some r, some rs => some (r :: rs)
    | _, _ => none

/-- The final line `copy_csv_to_table` prints:
`"{}/{} rows ingested. vessels table has {} rows total".format(...)`. -/
def ingestReport (ingested csvlines total : Nat) : String :=
  s!"{ingested}/{csvlines} rows ingested. vessels table has {total} rows total"

/-- `copy_csv_to_table(con, filename)`.  The file is its list of lines.
`next(f)` skips the header (raising `StopIteration` on an empty file),
`csvlines` counts the remaining lines, `copy_from` bulk-loads them (an error
propagates, rolling the statement back), and the row-count statistics are
printed.  Returns the new database state and the stdout lines, or the
propagated error. -/
def copy_csv_to_table (db : DB) (filename : String) (file : List String) :
    Except String (DB × List String) :=
  match file with
  | [] => .error "StopIteration"
  | _header :: data =>
    let rows_begin := db.vessels.length
    let csvlines := data.length
    match copyFrom data with
    | none => .error "copy_from: malformed row"
    | some newRows =>
      let db2 : DB := { db with vessels := db.vessels ++ newRows }
      let rows_end := db2.vessels.length
      let rows_ingested := rows_end - rows_begin
      .ok (db2,
        [s!"[**] vessels table has {rows_begin} rows",
         s!"[**] Copying {filename} to table . . . . . . ",
         s!"[**] Finished copying {filename} to table",
         ingestReport rows_ingested csvlines rows_end])

/-! ## Geometry backfill

`UPDATE vessels SET the_geom = ST_GeomFromText('POINT(' || LON || ' ' || LAT || ')', 4326);`
-/

/-- SQL `||` string concatenation: NULL-propagating. -/
def sqlConcat (a b : Option String) : Option String :=
  match a, b with
  | some x, some y => some (x ++ y)
  | _, _ => none

/-- `ST_GeomFromText(text, srid)`: NULL text gives NULL geometry. -/
def st_GeomFromText (t : Option String) (srid : Int) : Option Geom :=
  t.map (fun w => { wkt := w, srid := srid })

/-- The text argument `'POINT(' || LON || ' ' || LAT || ')'` for one row. -/
def geomText (r : VesselRow) : Option String :=
  sqlConcat (sqlConcat (sqlConcat (sqlConcat (some "POINT(") r.lon) (some " ")) r.lat)
    (some ")")

/-- The effect of the `UPDATE`'s SET clause on one row. -/
def updateGeomRow (r : VesselRow) : VesselRow :=
  { r with the_geom := st_GeomFromText (geomText r) 4326 }

/-- The final bulk `UPDATE vessels SET the_geom = ...` (no WHERE clause: it
touches every row), committed once. -/
def geometryBackfill (db : DB) : DB :=
  { db with vessels := db.vessels.map updateGeomRow }

/-! ## Driver loop

```
for month in range(1,13):
    for zone in range(1,21):
        if zone == 12 or zone == 13:
            continue
        with zipfile.ZipFile(filename.format(month, zone),"r") as zip_ref:
            zip_ref.extractall()
            copy_csv_to_table(con, csvpath.format(month, zone))
            shutil.rmtree(rmpath)
```
-/

/-- `"{:02d}"`: two-digit zero padding. -/
def pad2 (n : Nat) : String :=
  if n < 10 then "0" ++ toString n else toString n

/-- `csvpath.format(month, zone)`. -/
def csvPath (month zone : Nat) : String :=
  s!"AIS_ASCII_by_UTM_Month/2017_v2/AIS_2017_{pad2 month}_Zone{pad2 zone}.csv"

/-- Filesystem state relevant to the loop: whether the extraction directory
`AIS_ASCII_by_UTM_Month` currently exists. -/
structure FS where
  extracted : Bool
deriving DecidableEq, Repr

/-- The `(month, zone)` pairs the driver loop visits, in order:
`range(1,13) × range(1,21)` with zones 12 and 13 skipped by `continue`. -/
def driverIterationsList : List (Nat × Nat) :=
  (List.range' 1 12).flatMap (fun m =>
    (List.range' 1 20).filterMap (fun z =>
      if z = 12 ∨ z = 13 then none else some (m, z)))

/-- One loop iteration.  `arch` is the zip archive for this `(month, zone)`
(`none` = the zip file is missing, so `ZipFile` raises; `some file` = the CSV
inside it, as lines).  `extractall` materialises the extraction directory;
`shutil.rmtree` runs only after `copy_csv_to_table` returns — an exception
propagates first.  Result: the outcome, the filesystem afterwards, and
whether the ingest routine was invoked. -/
def driverIteration (arch : Option (List String)) (month zone : Nat) (db : DB)
    (fs : FS) : Except String DB × FS × Bool :=
  match arch with
  | none => (.error "FileNotFoundError", fs, false)
  | some file =>
    let fs1 : FS := { extracted := true }
    match copy_csv_to_table db (csvPath month zone) file with
    | .error e => (.error e, fs1, true)
    | .ok (db2, _out) => (.ok db2, { extracted := false }, true)

/-- Run the driver loop over a list of `(month, zone)` pairs, halting at the
first exception (the script has no handler, so an error ends the run).
Returns the outcome, the final filesystem state, and the number of times the
ingest routine was invoked. -/
def runIterations (arch : Nat → Nat → Option (List String)) :
    List (Nat × Nat) → DB → FS → Except String DB × FS × Nat
  | [], db, fs => (.ok db, fs, 0)
  | (m, z) :: rest, db, fs =>
    match driverIteration (arch m z) m z db fs with
    | (.ok db2, fs2, inv) =>
      let r := runIterations arch rest db2 fs2
      (r.1, r.2.1, (if inv then 1 else 0) + r.2.2)
    | (.error e, fs2, inv) => (.error e, fs2, if inv then 1 else 0)

/-! ## Helper lemmas: the generated zone names -/

/-- The letters used, in generation order: the 19 grid letters then `X`. -/
def allLetters : List String := llatname ++ ["X"]

/-- The `(lonIndex, latLetter)` pairs underlying the generated names, in
generation order. -/
def allPairs : List (Nat × String) :=
  allLetters.flatMap (fun la => llonname.map (fun i => (i, la)))

/-- `str(lonname)+latname`. -/
def nameOf (p : Nat × String) : String := toString p.1 ++ p.2

lemma queryvar_names_eq : queryvar.map ZoneEntry.name = allPairs.map nameOf := by rfl

lemma tostring_inj_llonname :
    ∀ i ∈ llonname, ∀ j ∈ llonname, toString i = toString j → i = j := by decide

lemma letters_len1 : ∀ la ∈ allLetters, la.data.length = 1 := by decide

lemma letters_nodup : allLetters.Nodup := by decide

lemma llonname_nodup : llonname.Nodup := by decide

lemma nameOf_inj : ∀ p ∈ allPairs, ∀ q ∈ allPairs, nameOf p = nameOf q → p = q := by
  intro p hp q hq h
  unfold allPairs at hp hq
  rw [List.mem_flatMap] at hp hq
  obtain ⟨la, hla, hpm⟩ := hp
  obtain ⟨lb, hlb, hqm⟩ := hq
  rw [List.mem_map] at hpm hqm
  obtain ⟨i, hi, rfl⟩ := hpm
  obtain ⟨j, hj, rfl⟩ := hqm
  simp only [nameOf] at h
  have hdata : (toString i).data ++ la.data = (toString j).data ++ lb.data := by
    have := congrArg String.data h
    simpa [String.data_append] using this
  have hlen : la.data.length = lb.data.length := by
    rw [letters_len1 la hla, letters_len1 lb hlb]
  have h2 := List.append_inj' hdata hlen
  have h3 : i = j := tostring_inj_llonname i hi j hj (String.ext h2.1)
  have h4 : la = lb := String.ext h2.2
  simp [h3, h4]

lemma allPairs_nodup : allPairs.Nodup := by
  unfold allPairs
  rw [List.nodup_flatMap]
  constructor
  · intro la _
    exact llonname_nodup.map (fun i j h => by injection h)
  · apply letters_nodup.imp
    intro la lb hne S hS1 hS2
    simp only [List.mem_map] at hS1 hS2
    obtain ⟨i, _, rfl⟩ := hS1
    obtain ⟨j, _, hj⟩ := hS2
    exact hne (by injection hj with _ h; exact h.symm)

lemma queryvar_names_nodup : (queryvar.map ZoneEntry.name).Nodup := by
  rw [queryvar_names_eq]
  exact allPairs_nodup.map_on nameOf_inj

/-! ## C3 -/

/-- C3: `build_zone_polygons` generates exactly 19×60 + 60 = 1200 zones (one
per latitude-band × longitude-band cell plus the `X` band); the generated
names are pairwise distinct; and every name is the decimal longitude index
(1–60) concatenated with the latitude letter (one of C–W, or X). -/
theorem C3_zone_count_and_unique_names :
    queryvar.length = 19 * 60 + 60 ∧
    (queryvar.map ZoneEntry.name).Nodup ∧
    (∀ db : DB, (build_zone_polygons db).zones =
      db.zones ++ queryvar.map (fun z => { name := z.name, polygon := zonePolygonRing z })) ∧
    (∀ z ∈ queryvar, ∃ i la, (1 ≤ i ∧ i ≤ 60) ∧ (la ∈ llatname ∨ la = "X") ∧
      z.name = toString i ++ la) := by
  refine ⟨by decide, queryvar_names_nodup, fun db => rfl, ?_⟩
  intro z hz
  rw [queryvar, List.mem_append] at hz
  rcases hz with hz | hz
  · rw [List.mem_flatMap] at hz
    obtain ⟨q, hq, hzm⟩ := hz
    rw [List.mem_map] at hzm
    obtain ⟨r, hr, rfl⟩ := hzm
    refine ⟨r.2, q.2, ?_, Or.inl (List.of_mem_zip hq).2, rfl⟩
    have := (List.of_mem_zip hr).2
    simp only [llonname, List.mem_range'] at this
    omega
  · rw [List.mem_map] at hz
    obtain ⟨r, hr, rfl⟩ := hz
    refine ⟨r.2, "X", ?_, Or.inr rfl, rfl⟩
    have := (List.of_mem_zip hr).2
    simp only [llonname, List.mem_range'] at this
    omega

/-- Witness for C3: the first generated zone is named `"1C"`, i.e. longitude
index 1 with latitude letter C. -/
theorem C3_zone_count_and_unique_names_witness :
    ∃ i la, (1 ≤ i ∧ i ≤ 60) ∧ (la ∈ llatname ∨ la = "X") ∧
      (ZoneEntry.mk "1C" (-80, -180) (-80, -174) (-72, -174) (-72, -180)
        (-80, -180)).name = toString i ++ la :=
  C3_zone_count_and_unique_names.2.2.2
    (ZoneEntry.mk "1C" (-80, -180) (-80, -174) (-72, -174) (-72, -180) (-80, -180))
    (by decide)

/-! ## C7 -/

/-- C7: for every cell, the builder constructs a closed rectangular ring of
exactly 5 vertices with first vertex = last vertex, the inserted polygon is
made from that ring (by re-appending its start point), and the resulting
polygon ring also has first vertex = last vertex. -/
theorem C7_closed_rings :
    ∀ z ∈ queryvar,
      (openLine z).length = 5 ∧ z.p1 = z.p5 ∧
      zonePolygonRing z = openLine z ++ [z.p1] ∧
      (zonePolygonRing z).head? = some z.p1 ∧
      (zonePolygonRing z).getLast? = some z.p1 := by
  intro z hz
  refine ⟨rfl, ?_, rfl, rfl, rfl⟩
  rw [queryvar, List.mem_append] at hz
  rcases hz with hz | hz
  · rw [List.mem_flatMap] at hz
    obtain ⟨q, _, hzm⟩ := hz
    rw [List.mem_map] at hzm
    obtain ⟨r, _, rfl⟩ := hzm
    rfl
  · rw [List.mem_map] at hz
    obtain ⟨r, _, rfl⟩ := hz
    rfl

/-- Witness for C7 at the first generated zone, `"1C"`. -/
theorem C7_closed_rings_witness :
    (openLine (ZoneEntry.mk "1C" (-80, -180) (-80, -174) (-72, -174) (-72, -180)
      (-80, -180))).length = 5 ∧
    (ZoneEntry.mk "1C" (-80, -180) (-80, -174) (-72, -174) (-72, -180)
      (-80, -180)).p1 =
      (ZoneEntry.mk "1C" (-80, -180) (-80, -174) (-72, -174) (-72, -180)
        (-80, -180)).p5 ∧
    zonePolygonRing (ZoneEntry.mk "1C" (-80, -180) (-80, -174) (-72, -174) (-72, -180)
      (-80, -180)) =
      openLine (ZoneEntry.mk "1C" (-80, -180) (-80, -174) (-72, -174) (-72, -180)
        (-80, -180)) ++ [((-80 : Int), (-180 : Int))] ∧
    (zonePolygonRing (ZoneEntry.mk "1C" (-80, -180) (-80, -174) (-72, -174) (-72, -180)
      (-80, -180))).head? = some ((-80 : Int), (-180 : Int)) ∧
    (zonePolygonRing (ZoneEntry.mk "1C" (-80, -180) (-80, -174) (-72, -174) (-72, -180)
      (-80, -180))).getLast? = some ((-80 : Int), (-180 : Int)) :=
  C7_closed_rings
    (ZoneEntry.mk "1C" (-80, -180) (-80, -174) (-72, -174) (-72, -180) (-80, -180))
    (by decide)

/-! ## C5 -/

/-- Modelled from the spec's words (claim C5): the vertex ring claimed for the
cell with longitude-band start `L`, latitude-band start `B` and height `H`,
with longitude as the first (X) coordinate of every vertex. -/
def specRingLonFirst (L B H : Int) : List (Int × Int) :=
  [(L, B), (L + 6, B), (L + 6, B + H), (L, B + H), (L, B)]

/-- Claim C5 as stated: every generated cell's ring is `specRingLonFirst` for
some band starts `L`, `B` and height `H` ∈ {8, 12}. -/
def claimC5 : Prop :=
  ∀ z ∈ queryvar, ∃ L B H, (H = 8 ∨ H = 12) ∧ openLine z = specRingLonFirst L B H

/-- Counterexample to C5: the very first generated cell (longitude band start
−180, latitude band start −80, height 8) has ring
`[(-80,-180), (-80,-174), (-72,-174), (-72,-180), (-80,-180)]`, which puts
latitude first; it is not `specRingLonFirst L B H` for any `L`, `B`, `H`. -/
theorem C5_counterexample : ¬ claimC5 := by
  intro h
  obtain ⟨L, B, H, _, heq⟩ :=
    h (ZoneEntry.mk "1C" (-80, -180) (-80, -174) (-72, -174) (-72, -180) (-80, -180))
      (by decide)
  simp only [openLine, specRingLonFirst, List.cons.injEq, Prod.mk.injEq, and_true] at heq
  omega

/-- C5 as amended: every generated ring is the rectangle of its cell, but with
latitude as the first (X) coordinate and longitude as the second (Y)
coordinate: for latitude-band start `B` (from `llat`, height 8, or `B = 72`,
height 12) and longitude-band start `L` (from `llon`), the vertices are
exactly `(B,L), (B,L+6), (B+H,L+6), (B+H,L), (B,L)`. -/
theorem C5_amended_ring_vertices_lat_first :
    ∀ z ∈ queryvar, ∃ B L H,
      ((H = 8 ∧ B ∈ llat) ∨ (H = 12 ∧ B = 72)) ∧ L ∈ llon ∧
      openLine z = [(B, L), (B, L + 6), (B + H, L + 6), (B + H, L), (B, L)] := by
  intro z hz
  rw [queryvar, List.mem_append] at hz
  rcases hz with hz | hz
  · rw [List.mem_flatMap] at hz
    obtain ⟨q, hq, hzm⟩ := hz
    rw [List.mem_map] at hzm
    obtain ⟨r, hr, rfl⟩ := hzm
    exact ⟨q.1, r.1, 8, Or.inl ⟨rfl, (List.of_mem_zip hq).1⟩, (List.of_mem_zip hr).1, rfl⟩
  · rw [List.mem_map] at hz
    obtain ⟨r, hr, rfl⟩ := hz
    exact ⟨72, r.1, 12, Or.inr ⟨rfl, rfl⟩, (List.of_mem_zip hr).1, rfl⟩

/-- Witness for the amended C5 at the first generated zone, `"1C"`. -/
theorem C5_amended_ring_vertices_lat_first_witness :
    ∃ B L H,
      ((H = 8 ∧ B ∈ llat) ∨ (H = 12 ∧ B = 72)) ∧ L ∈ llon ∧
      openLine (ZoneEntry.mk "1C" (-80, -180) (-80, -174) (-72, -174) (-72, -180)
        (-80, -180)) = [(B, L), (B, L + 6), (B + H, L + 6), (B + H, L), (B, L)] :=
  C5_amended_ring_vertices_lat_first
    (ZoneEntry.mk "1C" (-80, -180) (-80, -174) (-72, -174) (-72, -180) (-80, -180))
    (by decide)

/-! ## C6 -/

/-- The latitude extent `[b, b+8)` of each grid row generated from `llat`,
plus the `X` band `[72, 84)` (its ring height is 12 in `queryvar`). -/
def latBands : List (Int × Int) := llat.map (fun b => (b, b + 8)) ++ [(72, 72 + 12)]

/-- The longitude extent `[l, l+6)` of each grid column generated from `llon`. -/
def lonBands : List (Int × Int) := llon.map (fun l => (l, l + 6))

/-- Claim C6 as stated: the latitude bands partition `[-80, 80)` into
consecutive 8° steps except the final 12° band, and the longitude bands
partition `[-180, 180)` into exactly 60 disjoint 6° steps. -/
def claimC6 : Prop :=
  (∀ x : Int, (∃ b ∈ latBands, b.1 ≤ x ∧ x < b.2) ↔ (-80 ≤ x ∧ x < 80)) ∧
  latBands.Pairwise (fun a b => a.2 ≤ b.1 ∨ b.2 ≤ a.1) ∧
  (∀ p ∈ latBands.zip latBands.tail, p.1.2 = p.2.1) ∧
  (∀ b ∈ latBands.dropLast, b.2 - b.1 = 8) ∧
  latBands.getLast?.map (fun b => b.2 - b.1) = some 12 ∧
  lonBands.length = 60 ∧
  (∀ x : Int, (∃ b ∈ lonBands, b.1 ≤ x ∧ x < b.2) ↔ (-180 ≤ x ∧ x < 180)) ∧
  lonBands.Pairwise (fun a b => a.2 ≤ b.1 ∨ b.2 ≤ a.1) ∧
  (∀ b ∈ lonBands, b.2 - b.1 = 6)

/-- Counterexample to C6: latitude 80 lies in the generated `X` band
`[72, 84)`, but not in the claimed interval `[-80, 80)` — the latitude bands
cover `[-80, 84)`, not `[-80, 80)`. -/
theorem C6_counterexample : ¬ claimC6 := by
  intro h
  have h80 : (∃ b ∈ latBands, b.1 ≤ (80 : Int) ∧ (80 : Int) < b.2) :=
    ⟨(72, 84), by decide, by decide⟩
  have := (h.1 80).mp h80
  omega

/-- C6 as amended: the latitude bands partition `[-80, 84)` (not `[-80, 80)`)
into consecutive 8° steps except the final band, which spans 12°; the
longitude bands partition `[-180, 180)` into exactly 60 disjoint 6° steps. -/
theorem C6_amended_band_partition :
    (∀ x : Int, (∃ b ∈ latBands, b.1 ≤ x ∧ x < b.2) ↔ (-80 ≤ x ∧ x < 84)) ∧
    latBands.Pairwise (fun a b => a.2 ≤ b.1 ∨ b.2 ≤ a.1) ∧
    (∀ p ∈ latBands.zip latBands.tail, p.1.2 = p.2.1) ∧
    (∀ b ∈ latBands.dropLast, b.2 - b.1 = 8) ∧
    latBands.getLast?.map (fun b => b.2 - b.1) = some 12 ∧
    lonBands.length = 60 ∧
    (∀ x : Int, (∃ b ∈ lonBands, b.1 ≤ x ∧ x < b.2) ↔ (-180 ≤ x ∧ x < 180)) ∧
    lonBands.Pairwise (fun a b => a.2 ≤ b.1 ∨ b.2 ≤ a.1) ∧
    (∀ b ∈ lonBands, b.2 - b.1 = 6) := by
  refine ⟨?_, by decide, by decide, by decide, by decide, by decide, ?_, by decide, by decide⟩
  · intro x
    have h : latBands = [(-80, -72), (-72, -64), (-64, -56), (-56, -48), (-48, -40),
      (-40, -32), (-32, -24), (-24, -16), (-16, -8), (-8, 0), (0, 8), (8, 16), (16, 24),
      (24, 32), (32, 40), (40, 48), (48, 56), (56, 64), (64, 72), (72, 84)] := by decide
    rw [h]
    simp only [List.mem_cons, List.not_mem_nil, or_false, exists_eq_or_imp, exists_eq_left]
    omega
  · intro x
    have h : lonBands = [(-180, -174), (-174, -168), (-168, -162), (-162, -156),
      (-156, -150), (-150, -144), (-144, -138), (-138, -132), (-132, -126), (-126, -120),
      (-120, -114), (-114, -108), (-108, -102), (-102, -96), (-96, -90), (-90, -84),
      (-84, -78), (-78, -72), (-72, -66), (-66, -60), (-60, -54), (-54, -48), (-48, -42),
      (-42, -36), (-36, -30), (-30, -24), (-24, -18), (-18, -12), (-12, -6), (-6, 0),
      (0, 6), (6, 12), (12, 18), (18, 24), (24, 30), (30, 36), (36, 42), (42, 48),
      (48, 54), (54, 60), (60, 66), (66, 72), (72, 78), (78, 84), (84, 90), (90, 96),
      (96, 102), (102, 108), (108, 114), (114, 120), (120, 126), (126, 132), (132, 138),
      (138, 144), (144, 150), (150, 156), (156, 162), (162, 168), (168, 174),
      (174, 180)] := by decide
    rw [h]
    simp only [List.mem_cons, List.not_mem_nil, or_false, exists_eq_or_imp, exists_eq_left]
    omega

/-- Witness for the amended C6: latitude 83 is covered by some band (it lies
in the extended `X` band), and the first latitude band `[-80, -72)` spans 8°. -/
theorem C6_amended_band_partition_witness :
    (∃ b ∈ latBands, b.1 ≤ (83 : Int) ∧ (83 : Int) < b.2) ∧
    (((-80 : Int), (-72 : Int)).2 - ((-80 : Int), (-72 : Int)).1 = 8) :=
  ⟨(C6_amended_band_partition.1 83).mpr (by decide),
   C6_amended_band_partition.2.2.2.1 ((-80 : Int), (-72 : Int)) (by decide)⟩

/-! ## Helper lemmas: successful ingest and driver runs -/

lemma copy_ok_of_copyFrom (db : DB) (fname hdr : String) (data : List String)
    (rows : List VesselRow) (h : copyFrom data = some rows) :
    copy_csv_to_table db fname (hdr :: data) =
      .ok ({ db with vessels := db.vessels ++ rows },
        [s!"[**] vessels table has {db.vessels.length} rows",
         s!"[**] Copying {fname} to table . . . . . . ",
         s!"[**] Finished copying {fname} to table",
         ingestReport ((db.vessels ++ rows).length - db.vessels.length) data.length
           (db.vessels ++ rows).length]) := by
  simp [copy_csv_to_table, h]

lemma runIterations_all_ok (arch : Nat → Nat → Option (List String))
    (hall : ∀ m z : Nat, ∃ hdr data rows, arch m z = some (hdr :: data) ∧
      copyFrom data = some rows) :
    ∀ (l : List (Nat × Nat)) (db : DB) (fs : FS),
      (runIterations arch l db fs).1.isOk ∧ (runIterations arch l db fs).2.2 = l.length := by
  intro l
  induction l with
  | nil => intro db fs; exact ⟨rfl, rfl⟩
  | cons p rest ih =>
    intro db fs
    obtain ⟨m, z⟩ := p
    obtain ⟨hdr, data, rows, harch, hcf⟩ := hall m z
    have hit : driverIteration (arch m z) m z db fs =
        (.ok { db with vessels := db.vessels ++ rows }, { extracted := false }, true) := by
      rw [harch]
      simp [driverIteration, copy_ok_of_copyFrom db (csvPath m z) hdr data rows hcf]
    simp only [runIterations, hit]
    have := ih { db with vessels := db.vessels ++ rows } { extracted := false }
    exact ⟨this.1, by simp [this.2, Nat.add_comm]⟩

/-! ## C4 -/

/-- Claim C4 as stated: the driver loop visits exactly the pairs
month 1–12 × zone 1–20 with zones 12 and 13 skipped, and a run in which every
archive is present and ingests cleanly invokes the ingest routine exactly
236 times. -/
def claimC4 : Prop :=
  (∀ m z : Nat, (m, z) ∈ driverIterationsList ↔
    (1 ≤ m ∧ m ≤ 12 ∧ 1 ≤ z ∧ z ≤ 20 ∧ z ≠ 12 ∧ z ≠ 13)) ∧
  (∀ (arch : Nat → Nat → Option (List String)) (db : DB) (fs : FS),
    (∀ m z : Nat, ∃ hdr data rows, arch m z = some (hdr :: data) ∧
      copyFrom data = some rows) →
    (runIterations arch driverIterationsList db fs).2.2 = 236)

/-- Counterexample to C4: 12 months × (20 − 2) zones give 216 iterations, not
236; with every archive present (e.g. a header-only CSV in each) the fully
successful run invokes the ingest routine 216 times. -/
theorem C4_counterexample : ¬ claimC4 := by
  intro h
  have h2 := h.2 (fun _ _ => some ["hdr"]) emptyDB { extracted := false }
    (fun _ _ => ⟨"hdr", [], [], rfl, rfl⟩)
  have h3 := (runIterations_all_ok (fun _ _ => some ["hdr"])
    (fun _ _ => ⟨"hdr", [], [], rfl, rfl⟩) driverIterationsList emptyDB
    { extracted := false }).2
  rw [h2] at h3
  have h4 : driverIterationsList.length = 216 := by decide
  omega

/-- C4 as amended: the driver loop iterates over month 1–12 × zone 1–20
skipping zones 12 and 13 — 216 iterations — and a run in which every archive
is present and ingests cleanly invokes the CSV ingest routine exactly 216
times (once per source archive). -/
theorem C4_amended_driver_invocations :
    driverIterationsList.length = 216 ∧
    (∀ m z : Nat, (m, z) ∈ driverIterationsList ↔
      (1 ≤ m ∧ m ≤ 12 ∧ 1 ≤ z ∧ z ≤ 20 ∧ z ≠ 12 ∧ z ≠ 13)) ∧
    (∀ (arch : Nat → Nat → Option (List String)) (db : DB) (fs : FS),
      (∀ m z : Nat, ∃ hdr data rows, arch m z = some (hdr :: data) ∧
        copyFrom data = some rows) →
      (runIterations arch driverIterationsList db fs).1.isOk ∧
      (runIterations arch driverIterationsList db fs).2.2 = 216) := by
  refine ⟨by decide, ?_, ?_⟩
  · intro m z
    simp only [driverIterationsList, List.mem_flatMap, List.mem_filterMap,
      List.mem_range'_1]
    constructor
    · rintro ⟨m', hm', z', hz', heq⟩
      by_cases hc : z' = 12 ∨ z' = 13
      · simp [hc] at heq
      · rw [if_neg hc] at heq
        injection heq with h1
        injection h1 with h2 h3
        subst h2; subst h3
        omega
    · rintro ⟨h1, h2, h3, h4, h5, h6⟩
      refine ⟨m, by omega, z, by omega, ?_⟩
      rw [if_neg (by omega)]
  · intro arch db fs hall
    have h := runIterations_all_ok arch hall driverIterationsList db fs
    refine ⟨h.1, ?_⟩
    rw [h.2]
    decide

/-- Witness for the amended C4: with every archive a header-only CSV, the run
succeeds and invokes the ingest routine exactly 216 times. -/
theorem C4_amended_driver_invocations_witness :
    (runIterations (fun _ _ => some ["hdr"]) driverIterationsList emptyDB
      { extracted := false }).2.2 = 216 :=
  (C4_amended_driver_invocations.2.2 (fun _ _ => some ["hdr"]) emptyDB
    { extracted := false } (fun _ _ => ⟨"hdr", [], [], rfl, rfl⟩)).2

/-! ## C1 -/

/-- Row `r` holds exactly the 16 fields of CSV line `line`, positionally, in
the columns `(mmsi, basedatetime, lat, lon, sog, cog, heading, vesselname,
imo, callsign, vesseltype, status, length, width, draft, cargo)`, with empty
fields as NULL, and a NULL geometry. -/
def ingestedRowMatches (line : String) (r : VesselRow) : Prop :=
  r.mmsi = toNullable (fieldAt line 0) ∧
  r.basedatetime = toNullable (fieldAt line 1) ∧
  r.lat = toNullable (fieldAt line 2) ∧
  r.lon = toNullable (fieldAt line 3) ∧
  r.sog = toNullable (fieldAt line 4) ∧
  r.cog = toNullable (fieldAt line 5) ∧
  r.heading = toNullable (fieldAt line 6) ∧
  r.vesselname = toNullable (fieldAt line 7) ∧
  r.imo = toNullable (fieldAt line 8) ∧
  r.callsign = toNullable (fieldAt line 9) ∧
  r.vesseltype = toNullable (fieldAt line 10) ∧
  r.status = toNullable (fieldAt line 11) ∧
  r.length = toNullable (fieldAt line 12) ∧
  r.width = toNullable (fieldAt line 13) ∧
  r.draft = toNullable (fieldAt line 14) ∧
  r.cargo = toNullable (fieldAt line 15) ∧
  r.the_geom = none

lemma parseCsvLine_of_16 (line : String)
    (h : (splitFields ',' line).length = 16) :
    ∃ r, parseCsvLine line = some r ∧ ingestedRowMatches line r := by
  refine ⟨VesselRow.mk (toNullable (fieldAt line 0)) (toNullable (fieldAt line 1))
      (toNullable (fieldAt line 2)) (toNullable (fieldAt line 3)) none
      (toNullable (fieldAt line 4)) (toNullable (fieldAt line 5))
      (toNullable (fieldAt line 6)) (toNullable (fieldAt line 7))
      (toNullable (fieldAt line 8)) (toNullable (fieldAt line 9))
      (toNullable (fieldAt line 10)) (toNullable (fieldAt line 11))
      (toNullable (fieldAt line 12)) (toNullable (fieldAt line 13))
      (toNullable (fieldAt line 14)) (toNullable (fieldAt line 15)),
    ?_, ?_⟩
  · simp only [parseCsvLine]
    rw [if_pos h]
    rfl
  · exact ⟨rfl, rfl, rfl, rfl, rfl, rfl, rfl, rfl, rfl, rfl, rfl, rfl, rfl, rfl,
      rfl, rfl, rfl⟩

lemma copyFrom_of_16 :
    ∀ data : List String, (∀ line ∈ data, (splitFields ',' line).length = 16) →
    ∃ rows, copyFrom data = some rows ∧ rows.length = data.length ∧
      List.Forall₂ ingestedRowMatches data rows := by
  intro data
  induction data with
  | nil => exact fun _ => ⟨[], rfl, rfl, List.Forall₂.nil⟩
  | cons line rest ih =>
    intro hall
    obtain ⟨rows, hr, hlen, hfa⟩ := ih (fun l hl => hall l (List.mem_cons_of_mem _ hl))
    obtain ⟨r, hpr, hm⟩ := parseCsvLine_of_16 line (hall line (List.mem_cons_self _ _))
    refine ⟨r :: rows, ?_, by simp [hlen], List.Forall₂.cons hm hfa⟩
    simp [copyFrom, hpr, hr]

/-- C1: ingesting a well-formed CSV (header + N data rows, 16 comma-separated
fields per data row) succeeds, appends exactly N rows to `vessels` (so the
row count grows by exactly N), stores each row's 16 fields positionally in
the 16 listed columns with empty fields as NULL, and prints a final line
`"N/N rows ingested. vessels table has T rows total"`. -/
theorem C1_csv_ingest :
    ∀ (db : DB) (fname header : String) (data : List String),
    (∀ line ∈ data, (splitFields ',' line).length = 16) →
    ∃ rows out,
      copy_csv_to_table db fname (header :: data) =
        .ok ({ db with vessels := db.vessels ++ rows }, out) ∧
      rows.length = data.length ∧
      (db.vessels ++ rows).length = db.vessels.length + data.length ∧
      List.Forall₂ ingestedRowMatches data rows ∧
      out.getLast? = some (ingestReport data.length data.length
        (db.vessels.length + data.length)) := by
  intro db fname header data hall
  obtain ⟨rows, hcf, hlen, hfa⟩ := copyFrom_of_16 data hall
  refine ⟨rows, _, copy_ok_of_copyFrom db fname header data rows hcf,
    hlen, by simp [hlen], hfa, ?_⟩
  simp [List.getLast?, List.length_append, hlen, Nat.add_sub_cancel_left]

/-- Witness for C1: the spec's end-to-end scenario — a 3-row CSV ingested
into an empty database reports `"3/3 rows ingested"`. -/
theorem C1_csv_ingest_witness :
    (∀ line ∈ ["367000001,2017-01-01T00:00:00,40.0,-74.0,0.0,0.0,511.0,VESSEL A,IMO1,WA1,70,under way using engine,100,30,10,70",
       "367000002,2017-01-01T00:01:00,40.1,-74.1,1.0,2.0,511.0,VESSEL B,,WB2,70,,100,30,10,70",
       "367000003,2017-01-01T00:02:00,40.2,,2.0,3.0,,VESSEL C,IMO3,WC3,70,at anchor,,30,,70"],
      (splitFields ',' line).length = 16) ∧
    (∃ rows out,
      copy_csv_to_table emptyDB "AIS_ASCII_by_UTM_Month/2017_v2/AIS_2017_01_Zone01.csv"
        ("MMSI,BaseDateTime,LAT,LON,SOG,COG,Heading,VesselName,IMO,CallSign,VesselType,Status,Length,Width,Draft,Cargo" ::
          ["367000001,2017-01-01T00:00:00,40.0,-74.0,0.0,0.0,511.0,VESSEL A,IMO1,WA1,70,under way using engine,100,30,10,70",
           "367000002,2017-01-01T00:01:00,40.1,-74.1,1.0,2.0,511.0,VESSEL B,,WB2,70,,100,30,10,70",
           "367000003,2017-01-01T00:02:00,40.2,,2.0,3.0,,VESSEL C,IMO3,WC3,70,at anchor,,30,,70"]) =
        .ok ({ emptyDB with vessels := emptyDB.vessels ++ rows }, out) ∧
      rows.length = 3 ∧
      (emptyDB.vessels ++ rows).length = emptyDB.vessels.length + 3 ∧
      List.Forall₂ ingestedRowMatches
        ["367000001,2017-01-01T00:00:00,40.0,-74.0,0.0,0.0,511.0,VESSEL A,IMO1,WA1,70,under way using engine,100,30,10,70",
         "367000002,2017-01-01T00:01:00,40.1,-74.1,1.0,2.0,511.0,VESSEL B,,WB2,70,,100,30,10,70",
         "367000003,2017-01-01T00:02:00,40.2,,2.0,3.0,,VESSEL C,IMO3,WC3,70,at anchor,,30,,70"] rows ∧
      out.getLast? = some (ingestReport 3 3 (emptyDB.vessels.length + 3))) :=
  ⟨by decide,
   C1_csv_ingest emptyDB "AIS_ASCII_by_UTM_Month/2017_v2/AIS_2017_01_Zone01.csv"
     "MMSI,BaseDateTime,LAT,LON,SOG,COG,Heading,VesselName,IMO,CallSign,VesselType,Status,Length,Width,Draft,Cargo"
     ["367000001,2017-01-01T00:00:00,40.0,-74.0,0.0,0.0,511.0,VESSEL A,IMO1,WA1,70,under way using engine,100,30,10,70",
      "367000002,2017-01-01T00:01:00,40.1,-74.1,1.0,2.0,511.0,VESSEL B,,WB2,70,,100,30,10,70",
      "367000003,2017-01-01T00:02:00,40.2,,2.0,3.0,,VESSEL C,IMO3,WC3,70,at anchor,,30,,70"]
     (by decide)⟩

/-! ## C9 -/

/-- C9: the row-count statistic is purely informational.  Whenever the bulk
copy succeeds the routine returns `.ok` with the appended state and only
*prints* `rows_ingested` vs `csvlines` in its final stdout line — no
comparison of the two can fail the call or change the database; and the only
error cases of the routine are the empty file and a malformed row in the
bulk copy, never the row-count report. -/
theorem C9_rowcount_mismatch_only_logged :
    (∀ (db : DB) (fname hdr : String) (data : List String) (rows : List VesselRow),
      copyFrom data = some rows →
      ∃ out, copy_csv_to_table db fname (hdr :: data) =
          .ok ({ db with vessels := db.vessels ++ rows }, out) ∧
        out.getLast? = some (ingestReport rows.length data.length
          (db.vessels.length + rows.length))) ∧
    (∀ (db : DB) (fname : String) (file : List String) (e : String),
      copy_csv_to_table db fname file = .error e →
      file = [] ∨ ∃ hdr data, file = hdr :: data ∧ copyFrom data = none) := by
  constructor
  · intro db fname hdr data rows h
    refine ⟨_, copy_ok_of_copyFrom db fname hdr data rows h, ?_⟩
    simp [List.getLast?, List.length_append, Nat.add_sub_cancel_left]
  · intro db fname file e h
    cases file with
    | nil => exact Or.inl rfl
    | cons hdr data =>
      refine Or.inr ⟨hdr, data, rfl, ?_⟩
      cases hcf : copyFrom data with
      | none => rfl
      | some rows =>
        rw [copy_ok_of_copyFrom db fname hdr data rows hcf] at h
        exact absurd h (by simp)

/-- Witness for C9: a file whose single data row is ingested cleanly yields
`.ok` and a final report line. -/
theorem C9_rowcount_mismatch_only_logged_witness :
    ∃ out, copy_csv_to_table emptyDB "f.csv" [",,,,,,,,,,,,,,,", ",,,,,,,,,,,,,,,"] =
        .ok ({ emptyDB with vessels := emptyDB.vessels ++
          [VesselRow.mk none none none none none none none none none none none none
            none none none none none] }, out) ∧
      out.getLast? = some (ingestReport
        [VesselRow.mk none none none none none none none none none none none none
          none none none none none].length 1
        (emptyDB.vessels.length +
          [VesselRow.mk none none none none none none none none none none none none
            none none none none none].length)) :=
  C9_rowcount_mismatch_only_logged.1 emptyDB "f.csv" ",,,,,,,,,,,,,,,"
    [",,,,,,,,,,,,,,,"]
    [VesselRow.mk none none none none none none none none none none none none
      none none none none none]
    (by decide)

/-! ## C10 -/

/-- C10 (frame property): `copy_csv_to_table` leaves `zones` untouched and
only appends to `vessels` (every pre-existing row survives unchanged, in
place), and the final geometry backfill also leaves `zones` untouched, keeps
the `vessels` row count, and modifies nothing but the `the_geom` column of
each row. -/
theorem C10_only_vessels_modified :
    (∀ (db : DB) (fname : String) (file : List String) (db2 : DB)
      (out : List String),
      copy_csv_to_table db fname file = .ok (db2, out) →
      db2.zones = db.zones ∧
      db2.vessels.take db.vessels.length = db.vessels ∧
      ∃ appended, db2.vessels = db.vessels ++ appended) ∧
    (∀ db : DB, (geometryBackfill db).zones = db.zones ∧
      (geometryBackfill db).vessels = db.vessels.map updateGeomRow ∧
      (geometryBackfill db).vessels.length = db.vessels.length) ∧
    (∀ r : VesselRow,
      (updateGeomRow r).mmsi = r.mmsi ∧
      (updateGeomRow r).basedatetime = r.basedatetime ∧
      (updateGeomRow r).lat = r.lat ∧
      (updateGeomRow r).lon = r.lon ∧
      (updateGeomRow r).sog = r.sog ∧
      (updateGeomRow r).cog = r.cog ∧
      (updateGeomRow r).heading = r.heading ∧
      (updateGeomRow r).vesselname = r.vesselname ∧
      (updateGeomRow r).imo = r.imo ∧
      (updateGeomRow r).callsign = r.callsign ∧
      (updateGeomRow r).vesseltype = r.vesseltype ∧
      (updateGeomRow r).status = r.status ∧
      (updateGeomRow r).length = r.length ∧
      (updateGeomRow r).width = r.width ∧
      (updateGeomRow r).draft = r.draft ∧
      (updateGeomRow r).cargo = r.cargo) := by
  refine ⟨?_, fun db => ⟨rfl, rfl, by simp [geometryBackfill]⟩,
    fun r => ⟨rfl, rfl, rfl, rfl, rfl, rfl, rfl, rfl, rfl, rfl, rfl, rfl, rfl,
      rfl, rfl, rfl⟩⟩
  intro db fname file db2 out h
  cases file with
  | nil => exact absurd h (by simp [copy_csv_to_table])
  | cons hdr data =>
    cases hcf : copyFrom data with
    | none => simp [copy_csv_to_table, hcf] at h
    | some rows =>
      rw [copy_ok_of_copyFrom db fname hdr data rows hcf] at h
      injection h with h1
      injection h1 with h2 _
      subst h2
      exact ⟨rfl, List.take_left db.vessels rows, rows, rfl⟩

/-- Witness for C10: ingesting a header-only file into an empty database
keeps `zones` empty and appends nothing. -/
theorem C10_only_vessels_modified_witness :
    emptyDB.zones = emptyDB.zones ∧
    emptyDB.vessels.take emptyDB.vessels.length = emptyDB.vessels ∧
    ∃ appended, emptyDB.vessels = emptyDB.vessels ++ appended :=
  C10_only_vessels_modified.1 emptyDB "f.csv" ["hdr"] emptyDB
    ["[**] vessels table has 0 rows",
     "[**] Copying f.csv to table . . . . . . ",
     "[**] Finished copying f.csv to table",
     ingestReport 0 0 0]
    (by rfl)

/-! ## C2 -/

/-- C2: after the geometry backfill `UPDATE`, every vessel row with non-null
`lat` and `lon` has `the_geom = POINT(lon lat)` in SRID 4326 (longitude is
the X coordinate, latitude the Y coordinate of the WKT), and every row with
null `lat` or null `lon` has a null `the_geom` (the `||` concatenation
propagates NULL and `ST_GeomFromText(NULL, 4326)` is NULL). -/
theorem C2_geometry_backfill :
    ∀ db : DB, ∀ r ∈ (geometryBackfill db).vessels,
      (∀ la lo : String, r.lat = some la → r.lon = some lo →
        r.the_geom = some { wkt := "POINT(" ++ lo ++ " " ++ la ++ ")", srid := 4326 }) ∧
      ((r.lat = none ∨ r.lon = none) → r.the_geom = none) := by
  intro db r hr
  simp only [geometryBackfill, List.mem_map] at hr
  obtain ⟨r0, _, rfl⟩ := hr
  constructor
  · intro la lo hla hlo
    have hla0 : r0.lat = some la := hla
    have hlo0 : r0.lon = some lo := hlo
    simp [updateGeomRow, geomText, sqlConcat, st_GeomFromText, hla0, hlo0]
  · intro h
    rcases h with h | h
    · have h0 : r0.lat = none := h
      cases hlon : r0.lon with
      | none => simp [updateGeomRow, geomText, sqlConcat, st_GeomFromText, h0, hlon]
      | some lo => simp [updateGeomRow, geomText, sqlConcat, st_GeomFromText, h0, hlon]
    · have h0 : r0.lon = none := h
      simp [updateGeomRow, geomText, sqlConcat, st_GeomFromText, h0]

/-- A concrete vessel row with `lat = 40.0`, `lon = -74.0` (as the text the
CSV delivered) and NULL geometry. -/
def row40 : VesselRow :=
  { mmsi := none, basedatetime := none, lat := some "40.0", lon := some "-74.0",
    the_geom := none, sog := none, cog := none, heading := none,
    vesselname := none, imo := none, callsign := none, vesseltype := none,
    status := none, length := none, width := none, draft := none, cargo := none }

def db40 : DB := { zones := [], vessels := [row40] }

/-- Witness for C2: after the backfill, the row with `lat = 40.0`,
`lon = -74.0` carries the point `POINT(-74.0 40.0)` in SRID 4326. -/
theorem C2_geometry_backfill_witness :
    (updateGeomRow row40).the_geom =
      some { wkt := "POINT(" ++ "-74.0" ++ " " ++ "40.0" ++ ")", srid := 4326 } :=
  (C2_geometry_backfill db40 (updateGeomRow row40) (by decide)).1 "40.0" "-74.0" rfl rfl

/-! ## C8 -/

/-- Claim C8 as stated: in every driver-loop iteration in which the zip was
opened — so the archive was extracted and `copy_csv_to_table` was invoked on
the extracted CSV — the extracted directory tree is deleted afterwards
unconditionally, i.e. the filesystem no longer has the extracted tree when
the iteration ends, whether the ingest succeeded or raised. -/
def claimC8 : Prop :=
  ∀ (file : List String) (month zone : Nat) (db : DB) (fs : FS),
    ((driverIteration (some file) month zone db fs).2.1).extracted = false

/-- Counterexample to C8: with an archive whose CSV has a malformed data row
(`"bad"` is not a 16-field line), the ingest routine is invoked and raises,
the iteration ends in an error, and the extracted tree is still present —
cleanup runs only on the success path. -/
theorem C8_counterexample :
    (driverIteration (some ["hdr", "bad"]) 1 1 emptyDB { extracted := false }).2.2
      = true ∧
    (driverIteration (some ["hdr", "bad"]) 1 1 emptyDB { extracted := false }).1.isOk
      = false ∧
    ((driverIteration (some ["hdr", "bad"]) 1 1 emptyDB
      { extracted := false }).2.1).extracted = true ∧
    ¬ claimC8 := by
  refine ⟨by decide, by decide, by decide, fun h => ?_⟩
  have := h ["hdr", "bad"] 1 1 emptyDB { extracted := false }
  rw [show ((driverIteration (some ["hdr", "bad"]) 1 1 emptyDB
    { extracted := false }).2.1).extracted = true by decide] at this
  cases this

/-- C8 as amended: the extracted directory tree is deleted only on the
success path — after `copy_csv_to_table` returns normally the tree is gone,
but when the ingest raises the exception propagates before `shutil.rmtree`
runs and the extracted tree remains (and when the zip itself is missing,
`ZipFile` raises before extraction, leaving the filesystem untouched). -/
theorem C8_amended_cleanup_success_only :
    ∀ (arch : Option (List String)) (month zone : Nat) (db : DB) (fs : FS),
      (∀ db2 : DB, (driverIteration arch month zone db fs).1 = .ok db2 →
        ((driverIteration arch month zone db fs).2.1).extracted = false) ∧
      (∀ (file : List String) (e : String), arch = some file →
        copy_csv_to_table db (csvPath month zone) file = .error e →
        ((driverIteration arch month zone db fs).2.1).extracted = true ∧
        (driverIteration arch month zone db fs).2.2 = true) ∧
      (arch = none → (driverIteration arch month zone db fs).2.1 = fs ∧
        (driverIteration arch month zone db fs).2.2 = false) := by
  intro arch month zone db fs
  refine ⟨?_, ?_, ?_⟩
  · intro db2 h
    cases arch with
    | none => simp [driverIteration] at h
    | some file =>
      cases hc : copy_csv_to_table db (csvPath month zone) file with
      | error e => simp [driverIteration, hc] at h
      | ok p => simp [driverIteration, hc]
  · intro file e harch hc
    subst harch
    simp [driverIteration, hc]
  · intro harch
    subst harch
    exact ⟨rfl, rfl⟩

/-- Witness for the amended C8: a clean iteration (header-only CSV) ends with
the extracted tree removed. -/
theorem C8_amended_cleanup_success_only_witness :
    ((driverIteration (some ["hdr"]) 1 1 emptyDB
      { extracted := false }).2.1).extracted = false :=
  (C8_amended_cleanup_success_only (some ["hdr"]) 1 1 emptyDB
    { extracted := false }).1 { zones := [], vessels := [] ++ [] } (by rfl)

end LatLon
